import Mathlib

/-!
Verification of the halotools excerpt: the composite-model builder
`SmHmBinarySFR` (empirical_models/composite_models/sfr_models/smhm_binary_sfr.py)
and the designer stub `HOD_Model_Designer` (hod_designer.py).

The builder is shallowly embedded as a Lean function parametric over its three
external collaborators (the SFR sub-model constructor, the stellar-mass
sub-model constructor supplied via the `smhm_model` argument, and the
composite-model factory), since the collaborators' code is not part of the
excerpt.  Spec-modelled instances of those collaborators are provided for
concrete evaluation.  Python numbers are modelled as rationals, Python dicts
as association lists (first occurrence of a key is the binding), and Python
exceptions as the `Except String` monad.
-/

namespace Halotools

/-- A Python value as it appears in keyword-option bags and galaxy records:
`None`, a number, a boolean, or a string. -/
inductive PyVal where
  | none : PyVal
  | num : ℚ → PyVal
  | bool : Bool → PyVal
  | str : String → PyVal
deriving DecidableEq, Repr

/-- A Python keyword-argument bag (`**kwargs`): an association list from
argument names to values; the first binding of a key is its value. -/
abbrev Kwargs := List (String × PyVal)

/-- A galaxy record: a mapping from column names to values. -/
abbrev GalaxyRecord := List (String × PyVal)

/-- The named arguments that `SmHmBinarySFR` passes to the
`BinaryGalpropInterpolModel` constructor (smhm_binary_sfr.py lines 103-105). -/
structure BinaryGalpropInterpolArgs where
  galprop_name : String
  prim_haloprop_key : String
  abcissa : List ℚ
  ordinates : List ℚ
  logparam : Bool
  kwargs : Kwargs
deriving DecidableEq, Repr

/-- The named arguments that `SmHmBinarySFR` passes to the `smhm_model`
constructor (smhm_binary_sfr.py lines 107-109). -/
structure SmHmModelArgs where
  prim_haloprop_key : String
  redshift : ℚ
  scatter_abcissa : List ℚ
  scatter_ordinates : List ℚ
  kwargs : Kwargs
deriving DecidableEq, Repr

/-- The argument record a component-model constructor received, kept inside
the constructed sub-model so that round-trip properties can be stated. -/
inductive CtorRecord where
  | binaryGalprop : BinaryGalpropInterpolArgs → CtorRecord
  | smhm : SmHmModelArgs → CtorRecord
deriving DecidableEq, Repr

/-- A component-model instance: opaque except for its self-declared property
name (`galprop_name`, read by the builder at line 111) and the record of the
constructor arguments it received. -/
structure SubModel where
  galprop_name : String
  received : CtorRecord
deriving DecidableEq, Repr

/-- The blueprint: a Python dict from property name to component model. -/
abbrev Blueprint := List (String × SubModel)

/-- A galaxy selection predicate; applying it can raise (Python `>` on
incomparable values raises TypeError, a missing column raises KeyError). -/
abbrev SelectionFunc := GalaxyRecord → Except String Bool

/-- The composite model returned by the factory: it is built from the
blueprint and the optional selection predicate it was given. -/
structure CompositeModel where
  blueprint : Blueprint
  galaxy_selection_func : Option SelectionFunc

/-- Python dict insertion: if the key is present its value is replaced in
place, otherwise the pair is appended.  A dict literal is a sequence of such
insertions into the empty dict, so a repeated key keeps the first position
and the last value. -/
def dictInsert {α : Type} (d : List (String × α)) (k : String) (v : α) :
    List (String × α) :=
  if (d.map Prod.fst).contains k then
    d.map fun p => if p.1 = k then (k, v) else p
  else
    d ++ [(k, v)]

/-- Python dict subscript `d[k]`: the value at `k`, or a KeyError. -/
def dictGet (d : List (String × PyVal)) (k : String) : Except String PyVal :=
  match d.lookup k with
  | some v => Except.ok v
  | Option.none => Except.error ("KeyError: " ++ k)

/-- The numeric value of a Python value under the numeric tower used by
comparison operators (booleans compare as 0 and 1); `Option.none` when the
value is not numeric. -/
def pyNumVal : PyVal → Option ℚ
  | PyVal.num q => some q
  | PyVal.bool b => some (if b then 1 else 0)
  | _ => Option.none

/-- Python strict comparison `a > b`: defined between two numbers (booleans
count as numbers) and between two strings; any other combination raises a
TypeError, in particular comparing a number against `None`. -/
def pyGT (a b : PyVal) : Except String Bool :=
  match a, b with
  | PyVal.str s, PyVal.str t => Except.ok (decide (t < s))
  | _, _ =>
    match pyNumVal a, pyNumVal b with
    | some x, some y => Except.ok (decide (y < x))
    | _, _ => Except.error "TypeError: unsupported comparison"

/-- The selection predicate built at smhm_binary_sfr.py line 114:
`lambda x: x['stellar_mass'] > kwargs['threshold']`.  The lambda closes over
the keyword-option bag; the subscripts are evaluated left to right when the
predicate is applied, so a missing column raises before a missing option. -/
def thresholdSelection (kwargs : Kwargs) : SelectionFunc := fun x =>
  match dictGet x "stellar_mass", dictGet kwargs "threshold" with
  | Except.ok v, Except.ok t => pyGT v t
  | Except.error e, _ => Except.error e
  | Except.ok _, Except.error e => Except.error e

/-- Shallow embedding of `SmHmBinarySFR` (smhm_binary_sfr.py lines 103-120),
parametric over the three external collaborators: the
`BinaryGalpropInterpolModel` constructor, the `smhm_model` constructor passed
by the caller, and `factories.SubhaloModelFactory`.  The remaining parameters
are the function's own: `prim_haloprop_key`, `scatter_level`, `redshift`,
`sfr_abcissa`, `sfr_ordinates`, `logparam`, and the keyword-option bag
`kwargs`. -/
def SmHmBinarySFR
    (binaryGalpropInterpolModel : BinaryGalpropInterpolArgs → Except String SubModel)
    (smhm_model : SmHmModelArgs → Except String SubModel)
    (subhaloModelFactory : Blueprint → Option SelectionFunc → Except String CompositeModel)
    (prim_haloprop_key : String)
    (scatter_level : ℚ)
    (redshift : ℚ)
    (sfr_abcissa : List ℚ)
    (sfr_ordinates : List ℚ)
    (logparam : Bool)
    (kwargs : Kwargs) : Except String CompositeModel :=
  -- sfr_model = BinaryGalpropInterpolModel(galprop_name='quiescent',
  --   prim_haloprop_key=..., abcissa=sfr_abcissa, ordinates=sfr_ordinates,
  --   logparam=logparam, **kwargs)
  match binaryGalpropInterpolModel
      ⟨"quiescent", prim_haloprop_key, sfr_abcissa, sfr_ordinates, logparam, kwargs⟩ with
  | Except.error e => Except.error e
  | Except.ok sfr_model =>
    -- sm_model = smhm_model(prim_haloprop_key=..., redshift=redshift,
    --   scatter_abcissa=[12], scatter_ordinates=[scatter_level], **kwargs)
    match smhm_model
        ⟨prim_haloprop_key, redshift, [12], [scatter_level], kwargs⟩ with
    | Except.error e => Except.error e
    | Except.ok sm_model =>
      -- blueprint = {sm_model.galprop_name: sm_model,
      --              sfr_model.galprop_name: sfr_model}
      let blueprint :=
        dictInsert (dictInsert [] sm_model.galprop_name sm_model)
          sfr_model.galprop_name sfr_model
      -- if 'threshold' in kwargs.keys(): ...
      if (kwargs.map Prod.fst).contains "threshold" then
        -- galaxy_selection_func = lambda x: x['stellar_mass'] > kwargs['threshold']
        let galaxy_selection_func : SelectionFunc := thresholdSelection kwargs
        subhaloModelFactory blueprint (some galaxy_selection_func)
      else
        subhaloModelFactory blueprint Option.none

/-- Modelled from the spec: the `BinaryGalpropInterpolModel` constructor
(halotools sfr_models, not part of the excerpt).  Per the spec it rejects
mismatched abcissa/ordinate lengths and ordinates outside [0, 1], and
otherwise produces a component model exposing the given property name; the
model records the arguments it received. -/
def BinaryGalpropInterpolModelSpec (a : BinaryGalpropInterpolArgs) :
    Except String SubModel :=
  if a.abcissa.length ≠ a.ordinates.length then
    Except.error "ValueError: abcissa and ordinates must have the same length"
  else if ¬ (a.ordinates.all fun o => decide (0 ≤ o) && decide (o ≤ 1)) then
    Except.error "ValueError: ordinates must take values in the interval [0, 1]"
  else
    Except.ok ⟨a.galprop_name, CtorRecord.binaryGalprop a⟩

/-- Modelled from the spec: the `Behroozi10SmHm` constructor (halotools
smhm_models, not part of the excerpt), the default stellar-to-halo-mass
model.  Per the spec it rejects mismatched scatter control-point lists and
exposes the self-declared property name "stellar_mass"; the model records
the arguments it received. -/
def Behroozi10SmHmSpec (a : SmHmModelArgs) : Except String SubModel :=
  if a.scatter_abcissa.length ≠ a.scatter_ordinates.length then
    Except.error "ValueError: scatter abcissa and ordinates must have the same length"
  else
    Except.ok ⟨"stellar_mass", CtorRecord.smhm a⟩

/-- Modelled from the spec: `factories.SubhaloModelFactory` (halotools
factories, not part of the excerpt).  It accepts a property-name-to-model
mapping and an optional selection predicate and returns the composite model
built from exactly those. -/
def SubhaloModelFactorySpec (b : Blueprint) (f : Option SelectionFunc) :
    Except String CompositeModel :=
  Except.ok ⟨b, f⟩

/-- The blueprint of the composite model a builder call returned, when the
call succeeded. -/
def blueprintOf : Except String CompositeModel → Option Blueprint
  | Except.ok m => some m.blueprint
  | Except.error _ => Option.none

/-- The selection predicate attached to the composite model a builder call
returned, when the call succeeded and a predicate was attached. -/
def attachedSelection : Except String CompositeModel → Option SelectionFunc
  | Except.ok m => m.galaxy_selection_func
  | Except.error _ => Option.none

/-- Run the attached selection predicate of a builder result on one galaxy
record; `Option.none` when the call failed or no predicate was attached. -/
def runSelection (r : Except String CompositeModel) (x : GalaxyRecord) :
    Option (Except String Bool) :=
  (attachedSelection r).map fun p => p x

/-- Shallow embedding of the `HOD_Model_Designer` class (hod_designer.py):
its body is empty, so the type carries no state. -/
structure HOD_Model_Designer where

/-- Shallow embedding of `HOD_Model_Designer.__init__` (hod_designer.py
lines 26-27): it accepts arbitrary positional and keyword arguments and
performs no work. -/
def HOD_Model_Designer.init (_args : List PyVal) (_kwargs : Kwargs) :
    HOD_Model_Designer :=
  ⟨⟩

/-- A key with a binding in an association list is among the keys. -/
theorem contains_of_lookup_eq_some {α : Type} {l : List (String × α)}
    {k : String} {v : α} (h : l.lookup k = some v) :
    (l.map Prod.fst).contains k = true := by
  induction l with
  | nil => simp [List.lookup] at h
  | cons p t ih =>
    rw [List.lookup] at h
    cases hk : (k == p.1) with
    | true =>
      simp only [List.map_cons, List.contains_cons]
      rw [hk]
      rfl
    | false =>
      rw [hk] at h
      simp only [List.map_cons, List.contains_cons, hk, Bool.false_or]
      exact ih h

/-- A key with no binding in an association list is not among the keys. -/
theorem contains_eq_false_of_lookup_eq_none {α : Type} {l : List (String × α)}
    {k : String} (h : l.lookup k = Option.none) :
    (l.map Prod.fst).contains k = false := by
  induction l with
  | nil => rfl
  | cons p t ih =>
    rw [List.lookup] at h
    cases hk : (k == p.1) with
    | true => rw [hk] at h; simp at h
    | false =>
      rw [hk] at h
      simp only [List.map_cons, List.contains_cons, hk, Bool.false_or]
      exact ih h

/-- Inserting into the empty dict yields the one-entry dict. -/
theorem dictInsert_nil {α : Type} (k : String) (v : α) :
    dictInsert [] k v = [(k, v)] :=
  rfl

/-- Inserting a fresh key into a one-entry dict appends the new entry. -/
theorem dictInsert_singleton_ne {α : Type} {k1 k2 : String} (h : k2 ≠ k1)
    (v1 v2 : α) : dictInsert [(k1, v1)] k2 v2 = [(k1, v1), (k2, v2)] := by
  simp [dictInsert, h]

/-- Inserting an already-present key replaces its value in place. -/
theorem dictInsert_singleton_eq {α : Type} (k : String) (v1 v2 : α) :
    dictInsert [(k, v1)] k v2 = [(k, v2)] := by
  simp [dictInsert]

/-- The spec-modelled factory builds the composite model from exactly the
blueprint it was handed. -/
theorem blueprintOf_factorySpec (b : Blueprint) (s : Option SelectionFunc) :
    blueprintOf (SubhaloModelFactorySpec b s) = some b :=
  rfl

/-- The spec-modelled factory attaches exactly the predicate it was handed. -/
theorem attachedSelection_factorySpec (b : Blueprint) (s : Option SelectionFunc) :
    attachedSelection (SubhaloModelFactorySpec b s) = s :=
  rfl

/-- Core reduction of the builder: when both sub-model constructors succeed,
the builder hands the factory the blueprint obtained by the two dict
insertions, together with the threshold predicate exactly when the key
"threshold" occurs in the option bag. -/
theorem smhmBinarySFR_ok_eq
    (sfrC : BinaryGalpropInterpolArgs → Except String SubModel)
    (smC : SmHmModelArgs → Except String SubModel)
    (F : Blueprint → Option SelectionFunc → Except String CompositeModel)
    (phk : String) (sc z : ℚ) (ab ord : List ℚ) (lp : Bool) (kwargs : Kwargs)
    (sfr sm : SubModel)
    (hsfr : sfrC ⟨"quiescent", phk, ab, ord, lp, kwargs⟩ = Except.ok sfr)
    (hsm : smC ⟨phk, z, [12], [sc], kwargs⟩ = Except.ok sm) :
    SmHmBinarySFR sfrC smC F phk sc z ab ord lp kwargs
      = F (dictInsert (dictInsert [] sm.galprop_name sm) sfr.galprop_name sfr)
          (if (kwargs.map Prod.fst).contains "threshold"
           then some (thresholdSelection kwargs) else Option.none) := by
  unfold SmHmBinarySFR
  rw [hsfr, hsm]
  cases hc : (kwargs.map Prod.fst).contains "threshold" <;> simp [hc]

/-- The spec-modelled SFR constructor succeeds on valid control points and
returns the component model recording exactly the arguments it received. -/
theorem binaryGalpropSpec_ok {a : BinaryGalpropInterpolArgs}
    (hlen : a.abcissa.length = a.ordinates.length)
    (hord : ∀ o ∈ a.ordinates, 0 ≤ o ∧ o ≤ 1) :
    BinaryGalpropInterpolModelSpec a
      = Except.ok ⟨a.galprop_name, CtorRecord.binaryGalprop a⟩ := by
  have hall : (a.ordinates.all fun o => decide (0 ≤ o) && decide (o ≤ 1)) = true := by
    rw [List.all_eq_true]
    intro o ho
    simp [(hord o ho).1, (hord o ho).2]
  unfold BinaryGalpropInterpolModelSpec
  rw [if_neg (fun h => h hlen), if_neg (not_not_intro hall)]

/-- The spec-modelled default stellar-mass constructor succeeds on scatter
control-point lists of equal length and returns the component model
recording exactly the arguments it received. -/
theorem behrooziSpec_ok (a : SmHmModelArgs)
    (h : a.scatter_abcissa.length = a.scatter_ordinates.length) :
    Behroozi10SmHmSpec a = Except.ok ⟨"stellar_mass", CtorRecord.smhm a⟩ := by
  unfold Behroozi10SmHmSpec
  rw [if_neg (fun hh => hh h)]

/-- C10: the designer-stub constructor accepts any mixture of positional
and keyword arguments, never fails (it is a total function), and performs
no work: every call returns the unique, stateless instance. -/
theorem HOD_Model_Designer_init_accepts_anything
    (args : List PyVal) (kwargs : Kwargs) :
    HOD_Model_Designer.init args kwargs = HOD_Model_Designer.mk :=
  rfl

/-- C1: for every valid configuration in which the two constructed
sub-models declare distinct property names, the builder returns a non-null
composite model whose blueprint contains exactly two entries, one keyed by
the stellar-mass sub-model's declared property name and one keyed by the
SFR sub-model's declared property name. -/
theorem SmHmBinarySFR_blueprint_two_entries
    (sfrC : BinaryGalpropInterpolArgs → Except String SubModel)
    (smC : SmHmModelArgs → Except String SubModel)
    (phk : String) (sc z : ℚ) (ab ord : List ℚ) (lp : Bool) (kwargs : Kwargs)
    (sfr sm : SubModel)
    (hsfr : sfrC ⟨"quiescent", phk, ab, ord, lp, kwargs⟩ = Except.ok sfr)
    (hsm : smC ⟨phk, z, [12], [sc], kwargs⟩ = Except.ok sm)
    (hne : sm.galprop_name ≠ sfr.galprop_name) :
    blueprintOf (SmHmBinarySFR sfrC smC SubhaloModelFactorySpec
        phk sc z ab ord lp kwargs)
      = some [(sm.galprop_name, sm), (sfr.galprop_name, sfr)] := by
  rw [smhmBinarySFR_ok_eq sfrC smC SubhaloModelFactorySpec
      phk sc z ab ord lp kwargs sfr sm hsfr hsm]
  rw [dictInsert_nil, dictInsert_singleton_ne (Ne.symm hne)]
  exact blueprintOf_factorySpec _ _

/-- C1 witness: under the default sub-models the blueprint has exactly the
two entries "stellar_mass" and "quiescent". -/
theorem SmHmBinarySFR_blueprint_two_entries_witness :
    blueprintOf (SmHmBinarySFR BinaryGalpropInterpolModelSpec Behroozi10SmHmSpec
        SubhaloModelFactorySpec "halo_mvir" 1 0 [12, 15] [0, 1] true [])
      = some
        [("stellar_mass",
          ⟨"stellar_mass", CtorRecord.smhm ⟨"halo_mvir", 0, [12], [1], []⟩⟩),
         ("quiescent",
          ⟨"quiescent", CtorRecord.binaryGalprop
            ⟨"quiescent", "halo_mvir", [12, 15], [0, 1], true, []⟩⟩)] :=
  SmHmBinarySFR_blueprint_two_entries BinaryGalpropInterpolModelSpec
    Behroozi10SmHmSpec "halo_mvir" 1 0 [12, 15] [0, 1] true []
    ⟨"quiescent", CtorRecord.binaryGalprop
      ⟨"quiescent", "halo_mvir", [12, 15], [0, 1], true, []⟩⟩
    ⟨"stellar_mass", CtorRecord.smhm ⟨"halo_mvir", 0, [12], [1], []⟩⟩
    (binaryGalpropSpec_ok rfl (by decide)) (behrooziSpec_ok _ rfl) (by decide)

/-- C2: with a numeric threshold T among the options, the composite model
carries a selection predicate equivalent to stellar_mass > T: on a record
with stellar mass s it returns the truth value of T < s; in particular it
rejects T - 1, accepts T + 1, and rejects exactly T (strict comparison). -/
theorem SmHmBinarySFR_threshold_strict
    (sfrC : BinaryGalpropInterpolArgs → Except String SubModel)
    (smC : SmHmModelArgs → Except String SubModel)
    (phk : String) (sc z : ℚ) (ab ord : List ℚ) (lp : Bool) (kwargs : Kwargs)
    (T : ℚ)
    (hth : kwargs.lookup "threshold" = some (PyVal.num T))
    (sfr sm : SubModel)
    (hsfr : sfrC ⟨"quiescent", phk, ab, ord, lp, kwargs⟩ = Except.ok sfr)
    (hsm : smC ⟨phk, z, [12], [sc], kwargs⟩ = Except.ok sm) :
    (∀ s : ℚ,
      runSelection (SmHmBinarySFR sfrC smC SubhaloModelFactorySpec
          phk sc z ab ord lp kwargs) [("stellar_mass", PyVal.num s)]
        = some (Except.ok (decide (T < s)))) ∧
    runSelection (SmHmBinarySFR sfrC smC SubhaloModelFactorySpec
        phk sc z ab ord lp kwargs) [("stellar_mass", PyVal.num (T - 1))]
      = some (Except.ok false) ∧
    runSelection (SmHmBinarySFR sfrC smC SubhaloModelFactorySpec
        phk sc z ab ord lp kwargs) [("stellar_mass", PyVal.num (T + 1))]
      = some (Except.ok true) ∧
    runSelection (SmHmBinarySFR sfrC smC SubhaloModelFactorySpec
        phk sc z ab ord lp kwargs) [("stellar_mass", PyVal.num T)]
      = some (Except.ok false) := by
  have hc := contains_of_lookup_eq_some hth
  have key : ∀ s : ℚ,
      runSelection (SmHmBinarySFR sfrC smC SubhaloModelFactorySpec
          phk sc z ab ord lp kwargs) [("stellar_mass", PyVal.num s)]
        = some (Except.ok (decide (T < s))) := by
    intro s
    rw [runSelection, smhmBinarySFR_ok_eq sfrC smC SubhaloModelFactorySpec
        phk sc z ab ord lp kwargs sfr sm hsfr hsm, hc]
    simp only [if_true, attachedSelection_factorySpec]
    simp [thresholdSelection, dictGet, hth, List.lookup, pyGT, pyNumVal]
  refine ⟨key, ?_, ?_, ?_⟩
  · rw [key (T - 1), decide_eq_false (by linarith : ¬ (T < T - 1))]
  · rw [key (T + 1), decide_eq_true (by linarith : T < T + 1)]
  · rw [key T, decide_eq_false (lt_irrefl T)]

/-- C2 witness: with threshold 10, stellar mass 9 is rejected, 11 is
accepted, and 10 itself is rejected. -/
theorem SmHmBinarySFR_threshold_strict_witness :
    runSelection (SmHmBinarySFR BinaryGalpropInterpolModelSpec Behroozi10SmHmSpec
        SubhaloModelFactorySpec "halo_mvir" 1 0 [12, 15] [0, 1] true
        [("threshold", PyVal.num 10)]) [("stellar_mass", PyVal.num (10 - 1))]
      = some (Except.ok false) ∧
    runSelection (SmHmBinarySFR BinaryGalpropInterpolModelSpec Behroozi10SmHmSpec
        SubhaloModelFactorySpec "halo_mvir" 1 0 [12, 15] [0, 1] true
        [("threshold", PyVal.num 10)]) [("stellar_mass", PyVal.num (10 + 1))]
      = some (Except.ok true) ∧
    runSelection (SmHmBinarySFR BinaryGalpropInterpolModelSpec Behroozi10SmHmSpec
        SubhaloModelFactorySpec "halo_mvir" 1 0 [12, 15] [0, 1] true
        [("threshold", PyVal.num 10)]) [("stellar_mass", PyVal.num 10)]
      = some (Except.ok false) :=
  (SmHmBinarySFR_threshold_strict BinaryGalpropInterpolModelSpec
    Behroozi10SmHmSpec "halo_mvir" 1 0 [12, 15] [0, 1] true
    [("threshold", PyVal.num 10)] 10 (by decide)
    ⟨"quiescent", CtorRecord.binaryGalprop
      ⟨"quiescent", "halo_mvir", [12, 15], [0, 1], true,
        [("threshold", PyVal.num 10)]⟩⟩
    ⟨"stellar_mass", CtorRecord.smhm
      ⟨"halo_mvir", 0, [12], [1], [("threshold", PyVal.num 10)]⟩⟩
    (binaryGalpropSpec_ok rfl (by decide)) (behrooziSpec_ok _ rfl)).2

/-- C3: when the key "threshold" is absent from the options, the composite
model is built from the blueprint alone, with no selection predicate. -/
theorem SmHmBinarySFR_no_threshold_no_predicate
    (sfrC : BinaryGalpropInterpolArgs → Except String SubModel)
    (smC : SmHmModelArgs → Except String SubModel)
    (phk : String) (sc z : ℚ) (ab ord : List ℚ) (lp : Bool) (kwargs : Kwargs)
    (hth : kwargs.lookup "threshold" = Option.none)
    (sfr sm : SubModel)
    (hsfr : sfrC ⟨"quiescent", phk, ab, ord, lp, kwargs⟩ = Except.ok sfr)
    (hsm : smC ⟨phk, z, [12], [sc], kwargs⟩ = Except.ok sm) :
    SmHmBinarySFR sfrC smC SubhaloModelFactorySpec phk sc z ab ord lp kwargs
      = Except.ok
          ⟨dictInsert (dictInsert [] sm.galprop_name sm) sfr.galprop_name sfr,
           Option.none⟩ := by
  rw [smhmBinarySFR_ok_eq sfrC smC SubhaloModelFactorySpec
      phk sc z ab ord lp kwargs sfr sm hsfr hsm,
    contains_eq_false_of_lookup_eq_none hth]
  rfl

/-- C3 witness: the default call (no threshold option) yields a composite
model with no selection predicate. -/
theorem SmHmBinarySFR_no_threshold_no_predicate_witness :
    SmHmBinarySFR BinaryGalpropInterpolModelSpec Behroozi10SmHmSpec
        SubhaloModelFactorySpec "halo_mvir" 1 0 [12, 15] [0, 1] true []
      = Except.ok
          ⟨[("stellar_mass",
             ⟨"stellar_mass", CtorRecord.smhm ⟨"halo_mvir", 0, [12], [1], []⟩⟩),
            ("quiescent",
             ⟨"quiescent", CtorRecord.binaryGalprop
               ⟨"quiescent", "halo_mvir", [12, 15], [0, 1], true, []⟩⟩)],
           Option.none⟩ :=
  SmHmBinarySFR_no_threshold_no_predicate BinaryGalpropInterpolModelSpec
    Behroozi10SmHmSpec "halo_mvir" 1 0 [12, 15] [0, 1] true [] rfl
    ⟨"quiescent", CtorRecord.binaryGalprop
      ⟨"quiescent", "halo_mvir", [12, 15], [0, 1], true, []⟩⟩
    ⟨"stellar_mass", CtorRecord.smhm ⟨"halo_mvir", 0, [12], [1], []⟩⟩
    (binaryGalpropSpec_ok rfl (by decide)) (behrooziSpec_ok _ rfl)

/-- C4: attaching the predicate depends only on the presence of the key
"threshold": a call that explicitly passes threshold = None still gets a
selection predicate, and that predicate compares the record's stellar mass
against None (which raises a TypeError for a numeric stellar mass). -/
theorem SmHmBinarySFR_threshold_none_still_attached
    (sfrC : BinaryGalpropInterpolArgs → Except String SubModel)
    (smC : SmHmModelArgs → Except String SubModel)
    (phk : String) (sc z : ℚ) (ab ord : List ℚ) (lp : Bool) (kwargs : Kwargs)
    (hth : kwargs.lookup "threshold" = some PyVal.none)
    (sfr sm : SubModel)
    (hsfr : sfrC ⟨"quiescent", phk, ab, ord, lp, kwargs⟩ = Except.ok sfr)
    (hsm : smC ⟨phk, z, [12], [sc], kwargs⟩ = Except.ok sm) :
    (attachedSelection (SmHmBinarySFR sfrC smC SubhaloModelFactorySpec
        phk sc z ab ord lp kwargs)).isSome = true ∧
    (∀ (x : GalaxyRecord) (v : PyVal), x.lookup "stellar_mass" = some v →
      runSelection (SmHmBinarySFR sfrC smC SubhaloModelFactorySpec
          phk sc z ab ord lp kwargs) x
        = some (pyGT v PyVal.none)) ∧
    (∀ s : ℚ,
      runSelection (SmHmBinarySFR sfrC smC SubhaloModelFactorySpec
          phk sc z ab ord lp kwargs) [("stellar_mass", PyVal.num s)]
        = some (Except.error "TypeError: unsupported comparison")) := by
  have hc := contains_of_lookup_eq_some hth
  have hred := smhmBinarySFR_ok_eq sfrC smC SubhaloModelFactorySpec
    phk sc z ab ord lp kwargs sfr sm hsfr hsm
  have hat : attachedSelection (SmHmBinarySFR sfrC smC SubhaloModelFactorySpec
      phk sc z ab ord lp kwargs) = some (thresholdSelection kwargs) := by
    rw [hred, hc]
    simp only [if_true, attachedSelection_factorySpec]
  have happly : ∀ (x : GalaxyRecord) (v : PyVal),
      x.lookup "stellar_mass" = some v →
      runSelection (SmHmBinarySFR sfrC smC SubhaloModelFactorySpec
          phk sc z ab ord lp kwargs) x = some (pyGT v PyVal.none) := by
    intro x v hx
    rw [runSelection, hat]
    simp [thresholdSelection, dictGet, hx, hth]
  refine ⟨by rw [hat]; rfl, happly, ?_⟩
  intro s
  rw [happly [("stellar_mass", PyVal.num s)] (PyVal.num s) (by simp [List.lookup])]
  rfl

/-- C4 witness: with the option bag containing threshold = None, a
predicate is attached and evaluating it on a galaxy of stellar mass 5
raises a TypeError. -/
theorem SmHmBinarySFR_threshold_none_still_attached_witness :
    (attachedSelection (SmHmBinarySFR BinaryGalpropInterpolModelSpec
        Behroozi10SmHmSpec SubhaloModelFactorySpec "halo_mvir" 1 0
        [12, 15] [0, 1] true [("threshold", PyVal.none)])).isSome = true ∧
    runSelection (SmHmBinarySFR BinaryGalpropInterpolModelSpec
        Behroozi10SmHmSpec SubhaloModelFactorySpec "halo_mvir" 1 0
        [12, 15] [0, 1] true [("threshold", PyVal.none)])
        [("stellar_mass", PyVal.num 5)]
      = some (Except.error "TypeError: unsupported comparison") := by
  have h := SmHmBinarySFR_threshold_none_still_attached
    BinaryGalpropInterpolModelSpec Behroozi10SmHmSpec "halo_mvir" 1 0
    [12, 15] [0, 1] true [("threshold", PyVal.none)] (by decide)
    ⟨"quiescent", CtorRecord.binaryGalprop
      ⟨"quiescent", "halo_mvir", [12, 15], [0, 1], true,
        [("threshold", PyVal.none)]⟩⟩
    ⟨"stellar_mass", CtorRecord.smhm
      ⟨"halo_mvir", 0, [12], [1], [("threshold", PyVal.none)]⟩⟩
    (binaryGalpropSpec_ok rfl (by decide)) (behrooziSpec_ok _ rfl)
  exact ⟨h.1, h.2.2 5⟩

/-- A custom stellar-mass constructor that declares the property name
"quiescent", the same name the SFR sub-model declares; it always succeeds
and records its arguments. -/
def quiescentNamedSmHm (a : SmHmModelArgs) : Except String SubModel :=
  Except.ok ⟨"quiescent", CtorRecord.smhm a⟩

/-- C5 counterexample: when both sub-models declare the property name
"quiescent", the blueprint's single entry holds the SFR sub-model, which is
distinct from the stellar-mass sub-model — so it is not the stellar-mass
sub-model that overwrites the SFR one, but the other way round: in the dict
literal the SFR entry is written second and wins. -/
theorem SmHmBinarySFR_same_name_counterexample :
    blueprintOf (SmHmBinarySFR BinaryGalpropInterpolModelSpec quiescentNamedSmHm
        SubhaloModelFactorySpec "halo_mvir" 1 0 [12, 15] [0, 1] true [])
      = some [("quiescent",
          ⟨"quiescent", CtorRecord.binaryGalprop
            ⟨"quiescent", "halo_mvir", [12, 15], [0, 1], true, []⟩⟩)] ∧
    (⟨"quiescent", CtorRecord.binaryGalprop
        ⟨"quiescent", "halo_mvir", [12, 15], [0, 1], true, []⟩⟩ : SubModel)
      ≠ ⟨"quiescent", CtorRecord.smhm ⟨"halo_mvir", 0, [12], [1], []⟩⟩ := by
  constructor
  · rfl
  · decide

/-- C5 amended: when the two constructed sub-models declare the same
property name, the blueprint contains exactly one entry under that name,
and it is the SFR sub-model — written second in the blueprint dict literal
although constructed first — that silently overwrites the stellar-mass
sub-model. -/
theorem SmHmBinarySFR_same_name_sfr_overwrites
    (sfrC : BinaryGalpropInterpolArgs → Except String SubModel)
    (smC : SmHmModelArgs → Except String SubModel)
    (phk : String) (sc z : ℚ) (ab ord : List ℚ) (lp : Bool) (kwargs : Kwargs)
    (sfr sm : SubModel)
    (hsfr : sfrC ⟨"quiescent", phk, ab, ord, lp, kwargs⟩ = Except.ok sfr)
    (hsm : smC ⟨phk, z, [12], [sc], kwargs⟩ = Except.ok sm)
    (heq : sm.galprop_name = sfr.galprop_name) :
    blueprintOf (SmHmBinarySFR sfrC smC SubhaloModelFactorySpec
        phk sc z ab ord lp kwargs)
      = some [(sfr.galprop_name, sfr)] := by
  rw [smhmBinarySFR_ok_eq sfrC smC SubhaloModelFactorySpec
      phk sc z ab ord lp kwargs sfr sm hsfr hsm,
    dictInsert_nil, heq, dictInsert_singleton_eq]
  exact blueprintOf_factorySpec _ _

/-- C5 amended witness: with both names equal to "quiescent" the single
blueprint entry is the SFR sub-model. -/
theorem SmHmBinarySFR_same_name_sfr_overwrites_witness :
    blueprintOf (SmHmBinarySFR BinaryGalpropInterpolModelSpec quiescentNamedSmHm
        SubhaloModelFactorySpec "halo_mvir" 1 0 [12, 15] [0, 1] true [])
      = some [("quiescent",
          ⟨"quiescent", CtorRecord.binaryGalprop
            ⟨"quiescent", "halo_mvir", [12, 15], [0, 1], true, []⟩⟩)] :=
  SmHmBinarySFR_same_name_sfr_overwrites BinaryGalpropInterpolModelSpec
    quiescentNamedSmHm "halo_mvir" 1 0 [12, 15] [0, 1] true []
    ⟨"quiescent", CtorRecord.binaryGalprop
      ⟨"quiescent", "halo_mvir", [12, 15], [0, 1], true, []⟩⟩
    ⟨"quiescent", CtorRecord.smhm ⟨"halo_mvir", 0, [12], [1], []⟩⟩
    (binaryGalpropSpec_ok rfl (by decide)) rfl rfl

/-- C6: the values supplied for sfr_abcissa, sfr_ordinates and logparam
reach the SFR sub-model constructor unchanged, together with the property
name fixed to "quiescent" and the shared primary-halo-property key: the
constructed SFR sub-model records exactly those values, and the builder
consults the constructor only at that one argument record. -/
theorem SmHmBinarySFR_sfr_args_roundtrip
    (smC : SmHmModelArgs → Except String SubModel)
    (phk : String) (sc z : ℚ) (ab ord : List ℚ) (lp : Bool) (kwargs : Kwargs)
    (hlen : ab.length = ord.length)
    (hord : ∀ o ∈ ord, 0 ≤ o ∧ o ≤ 1)
    (sm : SubModel)
    (hsm : smC ⟨phk, z, [12], [sc], kwargs⟩ = Except.ok sm)
    (hname : sm.galprop_name ≠ "quiescent") :
    blueprintOf (SmHmBinarySFR BinaryGalpropInterpolModelSpec smC
        SubhaloModelFactorySpec phk sc z ab ord lp kwargs)
      = some [(sm.galprop_name, sm),
              ("quiescent",
               ⟨"quiescent", CtorRecord.binaryGalprop
                 ⟨"quiescent", phk, ab, ord, lp, kwargs⟩⟩)] ∧
    ∀ f g : BinaryGalpropInterpolArgs → Except String SubModel,
      f ⟨"quiescent", phk, ab, ord, lp, kwargs⟩
          = g ⟨"quiescent", phk, ab, ord, lp, kwargs⟩ →
      SmHmBinarySFR f smC SubhaloModelFactorySpec phk sc z ab ord lp kwargs
        = SmHmBinarySFR g smC SubhaloModelFactorySpec phk sc z ab ord lp kwargs := by
  constructor
  · have hsfr : BinaryGalpropInterpolModelSpec ⟨"quiescent", phk, ab, ord, lp, kwargs⟩
        = Except.ok ⟨"quiescent", CtorRecord.binaryGalprop
            ⟨"quiescent", phk, ab, ord, lp, kwargs⟩⟩ :=
      binaryGalpropSpec_ok hlen hord
    rw [smhmBinarySFR_ok_eq BinaryGalpropInterpolModelSpec smC
        SubhaloModelFactorySpec phk sc z ab ord lp kwargs _ sm hsfr hsm,
      dictInsert_nil]
    dsimp only
    rw [dictInsert_singleton_ne (Ne.symm hname)]
    exact blueprintOf_factorySpec _ _
  · intro f g h
    unfold SmHmBinarySFR
    rw [h]

/-- C6 witness: sfr_abcissa = [12, 15], sfr_ordinates = [1/4, 3/4],
logparam = true arrive at the SFR constructor exactly as given. -/
theorem SmHmBinarySFR_sfr_args_roundtrip_witness :
    blueprintOf (SmHmBinarySFR BinaryGalpropInterpolModelSpec Behroozi10SmHmSpec
        SubhaloModelFactorySpec "halo_mvir" 1 0 [12, 15] [1/4, 3/4] true [])
      = some [("stellar_mass",
               ⟨"stellar_mass", CtorRecord.smhm ⟨"halo_mvir", 0, [12], [1], []⟩⟩),
              ("quiescent",
               ⟨"quiescent", CtorRecord.binaryGalprop
                 ⟨"quiescent", "halo_mvir", [12, 15], [1/4, 3/4], true, []⟩⟩)] ∧
    SmHmBinarySFR BinaryGalpropInterpolModelSpec Behroozi10SmHmSpec
        SubhaloModelFactorySpec "halo_mvir" 1 0 [12, 15] [1/4, 3/4] true []
      = SmHmBinarySFR BinaryGalpropInterpolModelSpec Behroozi10SmHmSpec
        SubhaloModelFactorySpec "halo_mvir" 1 0 [12, 15] [1/4, 3/4] true [] := by
  have h := SmHmBinarySFR_sfr_args_roundtrip Behroozi10SmHmSpec
    "halo_mvir" 1 0 [12, 15] [1/4, 3/4] true [] rfl
    (by intro o ho
        rcases List.mem_cons.mp ho with h1 | h1
        · subst h1; constructor <;> norm_num
        · rcases List.mem_cons.mp h1 with h2 | h2
          · subst h2; constructor <;> norm_num
          · simp at h2)
    ⟨"stellar_mass", CtorRecord.smhm ⟨"halo_mvir", 0, [12], [1], []⟩⟩
    (behrooziSpec_ok _ rfl) (by decide)
  exact ⟨h.1, h.2 BinaryGalpropInterpolModelSpec BinaryGalpropInterpolModelSpec rfl⟩

/-- C7: a custom smhm_model callable, not the default, builds the
stellar-mass sub-model: its output at the argument record consisting of the
shared prim_haloprop_key, the given redshift, the single-point scatter
abcissa [12] and scatter ordinates [scatter_level] is the model placed in
the blueprint, and the builder consults the callable only at that one
argument record (so it is invoked exactly once, with exactly those
arguments). -/
theorem SmHmBinarySFR_custom_smhm_model
    (f : SmHmModelArgs → Except String SubModel)
    (phk : String) (sc z : ℚ) (ab ord : List ℚ) (lp : Bool) (kwargs : Kwargs)
    (hlen : ab.length = ord.length)
    (hord : ∀ o ∈ ord, 0 ≤ o ∧ o ≤ 1)
    (m : SubModel)
    (hm : f ⟨phk, z, [12], [sc], kwargs⟩ = Except.ok m)
    (hname : m.galprop_name ≠ "quiescent") :
    blueprintOf (SmHmBinarySFR BinaryGalpropInterpolModelSpec f
        SubhaloModelFactorySpec phk sc z ab ord lp kwargs)
      = some [(m.galprop_name, m),
              ("quiescent",
               ⟨"quiescent", CtorRecord.binaryGalprop
                 ⟨"quiescent", phk, ab, ord, lp, kwargs⟩⟩)] ∧
    ∀ g : SmHmModelArgs → Except String SubModel,
      g ⟨phk, z, [12], [sc], kwargs⟩ = f ⟨phk, z, [12], [sc], kwargs⟩ →
      SmHmBinarySFR BinaryGalpropInterpolModelSpec g SubhaloModelFactorySpec
          phk sc z ab ord lp kwargs
        = SmHmBinarySFR BinaryGalpropInterpolModelSpec f SubhaloModelFactorySpec
          phk sc z ab ord lp kwargs := by
  constructor
  · rw [smhmBinarySFR_ok_eq BinaryGalpropInterpolModelSpec f
        SubhaloModelFactorySpec phk sc z ab ord lp kwargs _ m
        (binaryGalpropSpec_ok hlen hord) hm,
      dictInsert_nil]
    dsimp only
    rw [dictInsert_singleton_ne (Ne.symm hname)]
    exact blueprintOf_factorySpec _ _
  · intro g h
    unfold SmHmBinarySFR
    rw [h]

/-- A custom stellar-mass constructor declaring the property name
"custom_mstar" rather than "stellar_mass"; it always succeeds and records
its arguments. -/
def customNamedSmHm (a : SmHmModelArgs) : Except String SubModel :=
  Except.ok ⟨"custom_mstar", CtorRecord.smhm a⟩

/-- C7 witness: a custom callable declaring "custom_mstar" is the one that
builds the stellar-mass sub-model, receiving prim_haloprop_key
"halo_mvir", redshift 0, scatter abcissa [12] and scatter ordinates [1]. -/
theorem SmHmBinarySFR_custom_smhm_model_witness :
    blueprintOf (SmHmBinarySFR BinaryGalpropInterpolModelSpec customNamedSmHm
        SubhaloModelFactorySpec "halo_mvir" 1 0 [12, 15] [0, 1] true [])
      = some [("custom_mstar",
               ⟨"custom_mstar", CtorRecord.smhm ⟨"halo_mvir", 0, [12], [1], []⟩⟩),
              ("quiescent",
               ⟨"quiescent", CtorRecord.binaryGalprop
                 ⟨"quiescent", "halo_mvir", [12, 15], [0, 1], true, []⟩⟩)] ∧
    SmHmBinarySFR BinaryGalpropInterpolModelSpec customNamedSmHm
        SubhaloModelFactorySpec "halo_mvir" 1 0 [12, 15] [0, 1] true []
      = SmHmBinarySFR BinaryGalpropInterpolModelSpec customNamedSmHm
        SubhaloModelFactorySpec "halo_mvir" 1 0 [12, 15] [0, 1] true [] := by
  have h := SmHmBinarySFR_custom_smhm_model customNamedSmHm
    "halo_mvir" 1 0 [12, 15] [0, 1] true [] rfl (by decide)
    ⟨"custom_mstar", CtorRecord.smhm ⟨"halo_mvir", 0, [12], [1], []⟩⟩
    rfl (by decide)
  exact ⟨h.1, h.2 customNamedSmHm rfl⟩

/-- C8: the builder performs no validation, catching or translation of
errors: an error raised by the SFR sub-model constructor, by the
stellar-mass sub-model constructor, or by the composite-model factory
propagates unchanged to the caller and aborts the whole build at that
point (a later constituent is never consulted after an earlier failure). -/
theorem SmHmBinarySFR_error_propagation
    (sfrC : BinaryGalpropInterpolArgs → Except String SubModel)
    (smC : SmHmModelArgs → Except String SubModel)
    (F : Blueprint → Option SelectionFunc → Except String CompositeModel)
    (phk : String) (sc z : ℚ) (ab ord : List ℚ) (lp : Bool) (kwargs : Kwargs) :
    (∀ e : String,
      sfrC ⟨"quiescent", phk, ab, ord, lp, kwargs⟩ = Except.error e →
      SmHmBinarySFR sfrC smC F phk sc z ab ord lp kwargs = Except.error e) ∧
    (∀ (e : String) (sfr : SubModel),
      sfrC ⟨"quiescent", phk, ab, ord, lp, kwargs⟩ = Except.ok sfr →
      smC ⟨phk, z, [12], [sc], kwargs⟩ = Except.error e →
      SmHmBinarySFR sfrC smC F phk sc z ab ord lp kwargs = Except.error e) ∧
    (∀ (e : String) (sfr sm : SubModel),
      sfrC ⟨"quiescent", phk, ab, ord, lp, kwargs⟩ = Except.ok sfr →
      smC ⟨phk, z, [12], [sc], kwargs⟩ = Except.ok sm →
      (∀ (b : Blueprint) (s : Option SelectionFunc), F b s = Except.error e) →
      SmHmBinarySFR sfrC smC F phk sc z ab ord lp kwargs = Except.error e) := by
  refine ⟨?_, ?_, ?_⟩
  · intro e he
    unfold SmHmBinarySFR
    rw [he]
  · intro e sfr hs he
    unfold SmHmBinarySFR
    rw [hs, he]
  · intro e sfr sm hs hm hF
    rw [smhmBinarySFR_ok_eq sfrC smC F phk sc z ab ord lp kwargs sfr sm hs hm]
    exact hF _ _

/-- C8 witness: a failing SFR constructor aborts the build with its own
error message. -/
theorem SmHmBinarySFR_error_propagation_witness :
    SmHmBinarySFR (fun _ => Except.error "ValueError: bad control points")
        Behroozi10SmHmSpec SubhaloModelFactorySpec
        "halo_mvir" 1 0 [12, 15] [0, 1] true []
      = Except.error "ValueError: bad control points" :=
  (SmHmBinarySFR_error_propagation
      (fun _ => Except.error "ValueError: bad control points")
      Behroozi10SmHmSpec SubhaloModelFactorySpec
      "halo_mvir" 1 0 [12, 15] [0, 1] true []).1
    "ValueError: bad control points" rfl

/-- C9: when a threshold is attached, the selection predicate reads the
galaxy record under the fixed key "stellar_mass", independent of the
stellar-mass sub-model's declared property name: when that name differs
from "stellar_mass", the blueprint keys avoid "stellar_mass" entirely, yet
the predicate raises a KeyError on any record lacking a "stellar_mass"
column and compares the "stellar_mass" column when it is present. -/
theorem SmHmBinarySFR_predicate_reads_fixed_key
    (sfrC : BinaryGalpropInterpolArgs → Except String SubModel)
    (smC : SmHmModelArgs → Except String SubModel)
    (phk : String) (sc z : ℚ) (ab ord : List ℚ) (lp : Bool) (kwargs : Kwargs)
    (T : ℚ)
    (hth : kwargs.lookup "threshold" = some (PyVal.num T))
    (sfr sm : SubModel)
    (hsfr : sfrC ⟨"quiescent", phk, ab, ord, lp, kwargs⟩ = Except.ok sfr)
    (hsm : smC ⟨phk, z, [12], [sc], kwargs⟩ = Except.ok sm)
    (hsm_name : sm.galprop_name ≠ "stellar_mass")
    (hsfr_name : sfr.galprop_name ≠ "stellar_mass")
    (hne : sm.galprop_name ≠ sfr.galprop_name) :
    blueprintOf (SmHmBinarySFR sfrC smC SubhaloModelFactorySpec
        phk sc z ab ord lp kwargs)
      = some [(sm.galprop_name, sm), (sfr.galprop_name, sfr)] ∧
    "stellar_mass" ∉ [sm.galprop_name, sfr.galprop_name] ∧
    (∀ x : GalaxyRecord, x.lookup "stellar_mass" = Option.none →
      runSelection (SmHmBinarySFR sfrC smC SubhaloModelFactorySpec
          phk sc z ab ord lp kwargs) x
        = some (Except.error ("KeyError: " ++ "stellar_mass"))) ∧
    (∀ s : ℚ,
      runSelection (SmHmBinarySFR sfrC smC SubhaloModelFactorySpec
          phk sc z ab ord lp kwargs) [("stellar_mass", PyVal.num s)]
        = some (Except.ok (decide (T < s)))) := by
  have hc := contains_of_lookup_eq_some hth
  have hred := smhmBinarySFR_ok_eq sfrC smC SubhaloModelFactorySpec
    phk sc z ab ord lp kwargs sfr sm hsfr hsm
  have hat : attachedSelection (SmHmBinarySFR sfrC smC SubhaloModelFactorySpec
      phk sc z ab ord lp kwargs) = some (thresholdSelection kwargs) := by
    rw [hred, hc]
    simp only [if_true, attachedSelection_factorySpec]
  refine ⟨?_, ?_, ?_, ?_⟩
  · rw [hred, dictInsert_nil, dictInsert_singleton_ne (Ne.symm hne)]
    exact blueprintOf_factorySpec _ _
  · intro hmem
    rcases List.mem_cons.mp hmem with h1 | h1
    · exact hsm_name h1.symm
    · rcases List.mem_cons.mp h1 with h2 | h2
      · exact hsfr_name h2.symm
      · simp at h2
  · intro x hx
    rw [runSelection, hat]
    simp [thresholdSelection, dictGet, hx]
  · intro s
    rw [runSelection, hat]
    simp [thresholdSelection, dictGet, hth, List.lookup, pyGT, pyNumVal]

/-- C9 witness: with a custom stellar-mass model declaring "custom_mstar"
and threshold 10, the blueprint keys are "custom_mstar" and "quiescent"
(not "stellar_mass"), yet the predicate raises a KeyError on a record that
has a "custom_mstar" column but no "stellar_mass" column. -/
theorem SmHmBinarySFR_predicate_reads_fixed_key_witness :
    blueprintOf (SmHmBinarySFR BinaryGalpropInterpolModelSpec customNamedSmHm
        SubhaloModelFactorySpec "halo_mvir" 1 0 [12, 15] [0, 1] true
        [("threshold", PyVal.num 10)])
      = some [("custom_mstar",
               ⟨"custom_mstar", CtorRecord.smhm
                 ⟨"halo_mvir", 0, [12], [1], [("threshold", PyVal.num 10)]⟩⟩),
              ("quiescent",
               ⟨"quiescent", CtorRecord.binaryGalprop
                 ⟨"quiescent", "halo_mvir", [12, 15], [0, 1], true,
                   [("threshold", PyVal.num 10)]⟩⟩)] ∧
    runSelection (SmHmBinarySFR BinaryGalpropInterpolModelSpec customNamedSmHm
        SubhaloModelFactorySpec "halo_mvir" 1 0 [12, 15] [0, 1] true
        [("threshold", PyVal.num 10)]) [("custom_mstar", PyVal.num 11)]
      = some (Except.error ("KeyError: " ++ "stellar_mass")) := by
  have h := SmHmBinarySFR_predicate_reads_fixed_key
    BinaryGalpropInterpolModelSpec customNamedSmHm "halo_mvir" 1 0
    [12, 15] [0, 1] true [("threshold", PyVal.num 10)] 10 (by decide)
    ⟨"quiescent", CtorRecord.binaryGalprop
      ⟨"quiescent", "halo_mvir", [12, 15], [0, 1], true,
        [("threshold", PyVal.num 10)]⟩⟩
    ⟨"custom_mstar", CtorRecord.smhm
      ⟨"halo_mvir", 0, [12], [1], [("threshold", PyVal.num 10)]⟩⟩
    (binaryGalpropSpec_ok rfl (by decide)) rfl
    (by decide) (by decide) (by decide)
  exact ⟨h.1, h.2.2.1 [("custom_mstar", PyVal.num 11)] (by decide)⟩

end Halotools
